import Mathlib

/-!
Verification development for the text_to_video repository.

The development shallowly embeds the video-generation pipeline of
`src/main.py` (prompt building, the Pika provider client, the local
fallback renderer, and the per-request orchestration in
`SceneGeneratorApp.run`) and the agents entry point
(`src/agents/orchestrator.py`, `src/agents/video_agent.py`).

External effects (HTTP exchanges, the filesystem, clocks) are modelled as
explicit environment values passed to the embedded functions; each embedded
function is total, mirroring the fact that every loop in the source is
bounded (the only loop inside a single request is the `range(60)` poll loop
of `PikaHelper.generate_video`).
-/

namespace TextToVideo

/-! ## Prompt building (`src/main.py` lines 88-150) -/

/-- The fixed text of `cinematic_template` (main.py lines 142-149) up to the
embedded `user_text`.  The Python function returns this text followed by the
user text and a closing quote. -/
def templateHead : String :=
  "A cinematic VR scene: a single speaker stands at center stage in a large theater, spotlight focused on them, rows of shadowed audience facing the stage. The speaker appears nervous but determined, hands slightly trembling, deep breathing visible. Perspective is third-person slightly behind and to the left of the speaker, camera slowly pushes forward. Lighting is warm stage lights with soft backlight and subtle audience movement. Environment detail: wooden stage, microphone on stand, theater curtains in the background. Emotion to convey: anxious anticipation, hopeful determination. Based on: \""

/-- `cinematic_template(user_text)` (main.py lines 136-150): the fixed
cinematic description with `user_text` interpolated verbatim at the end. -/
def cinematic_template (user_text : String) : String :=
  templateHead ++ user_text ++ "\""

/-- One list item found under `"candidates"` or `"choices"` in a dict-shaped
Gemini response: either a string, or a dict that may carry a `"text"` key
(main.py lines 122-128). -/
inductive GItem where
  | istr (s : String)
  | idict (text : Option String)
deriving DecidableEq, Repr

/-- A dict-shaped Gemini response (main.py lines 116-128).  An `Option
String` field is `some` exactly when the corresponding key is present with a
string value; a `some` list field models a present non-empty-or-empty
list/tuple value. -/
structure GDict where
  output : Option String
  text : Option String
  content : Option String
  candidates : Option (List GItem)
  choices : Option (List GItem)
deriving DecidableEq, Repr

/-- The response shapes `build_cinematic_prompt` distinguishes
(main.py lines 105-128): `resp is None`, a plain string, an object with a
`text` attribute, or a dict. -/
inductive GResp where
  | noResp
  | asStr (s : String)
  | withText (t : String)
  | asDict (d : GDict)
deriving DecidableEq, Repr

/-- How the rewriting collaborator behaves on this call: the helper is
unavailable (`self.available` false, main.py line 93), the guarded call
raises (caught at lines 131-133), or it returns a response value. -/
inductive GeminiCall where
  | unavailable
  | raises
  | returns (r : GResp)
deriving DecidableEq, Repr

/-- The `for k in ("candidates", "choices")` inner handling (main.py lines
122-128): a present non-empty list whose head is a string or a dict with a
`"text"` key yields that text stripped; otherwise the loop falls through. -/
def tryItems : Option (List GItem) → Option String
  | some (GItem.istr s :: _) => some s.trim
  | some (GItem.idict (some t) :: _) => some t.trim
  | _ => none

/-- Dict-shape handling of `build_cinematic_prompt` (main.py lines 116-130):
the keys `output`, `text`, `content` in order, then `candidates` and
`choices`, and finally the local template as last resort. -/
def handleGDict (d : GDict) (user_text : String) : String :=
  match d.output with
  | some s => s.trim
  | none =>
    match d.text with
    | some s => s.trim
    | none =>
      match d.content with
      | some s => s.trim
      | none =>
        match tryItems d.candidates with
        | some s => s
        | none =>
          match tryItems d.choices with
          | some s => s
          | none => cinematic_template user_text

/-- `GeminiHelper.build_cinematic_prompt` (main.py lines 88-133).  Python's
`str.strip()` is modelled by `String.trim` (both strip leading and trailing
whitespace). -/
def build_cinematic_prompt (call : GeminiCall) (user_text : String) : String :=
  match call with
  | .unavailable => cinematic_template user_text
  | .raises => cinematic_template user_text
  | .returns GResp.noResp => cinematic_template user_text
  | .returns (GResp.asStr s) => s.trim
  | .returns (GResp.withText t) => t.trim
  | .returns (GResp.asDict d) => handleGDict d user_text

/-- ASCII printability: the printable range 0x20-0x7E.  Control characters
such as a newline are not printable. -/
def printableChar (c : Char) : Bool :=
  32 ≤ c.toNat && c.toNat ≤ 126

/-! ## Word wrap of the fallback renderer (`src/main.py` lines 283-294) -/

/-- `(line + " " + w).strip()` for a current line and a word coming from
`text.split()` (main.py line 289).  Words produced by `split()` carry no
leading or trailing whitespace, and the accumulated line is built from such
words joined by single spaces, so `strip()` only removes the leading space
introduced when `line` is empty. -/
def stripJoin (line w : String) : String :=
  if line = "" then w else line ++ " " ++ w

/-- One iteration of the wrapping loop (main.py lines 287-292) over the
accumulator `(lines, line)`: a word that fits within `max_chars_per_line =
40` is joined onto the current line, otherwise the current line is emitted
(even when it is empty) and the word starts a new line. -/
def wrapStep (acc : List String × String) (w : String) : List String × String :=
  if acc.2.length + w.length + 1 ≤ 40 then (acc.1, stripJoin acc.2 w)
  else (acc.1 ++ [acc.2], w)

/-- The full wrapping of a word list (main.py lines 284-294): fold the loop
body over the words of `text.split()` and append the last line when it is
non-empty (`if line: lines.append(line)`). -/
def wrapWords (ws : List String) : List String :=
  let r := ws.foldl wrapStep ([], "")
  if r.2 = "" then r.1 else r.1 ++ [r.2]

/-- Specification-side view of a wrapped line: the words it holds, joined by
single spaces (the empty group denotes the empty line). -/
def lineOf : List String → String
  | [] => ""
  | w :: ws => ws.foldl (fun a b => a ++ " " ++ b) w

/-- The wrapping loop with the current line kept as the list of its words
rather than the joined string; the branch condition is computed on the
joined string, exactly as `wrapStep` does. -/
def wrapStepS (acc : List (List String) × List String) (w : String) :
    List (List String) × List String :=
  if (lineOf acc.2).length + w.length + 1 ≤ 40 then (acc.1, acc.2 ++ [w])
  else (acc.1 ++ [acc.2], [w])

/-- The wrapping of a word list into groups of whole words, mirroring
`wrapWords` on the structured accumulator. -/
def wrapGroups (ws : List String) : List (List String) :=
  let r := ws.foldl wrapStepS ([], [])
  if r.2 = [] then r.1 else r.1 ++ [r.2]

/-- `text.split()` in Python: split on any whitespace and drop the empty
pieces. -/
def pySplit (s : String) : List String :=
  (s.split fun c => c.isWhitespace).filter fun w => w ≠ ""

/-! ## Fallback renderer (`src/main.py` lines 255-316) -/

/-- `FPS = 24` (main.py line 57). -/
def FPS : Nat := 24

/-- `DEFAULT_DURATION = 10` (main.py line 56). -/
def DEFAULT_DURATION : Nat := 10

/-- Availability of the two local capabilities probed at import time:
MoviePy (video muxing, main.py lines 32-36) and Pillow (image composition,
lines 38-42). -/
structure Caps where
  moviepy : Bool
  pil : Bool
deriving DecidableEq, Repr

/-- The content of one rendered frame (main.py lines 278-307): the frame is
fully determined by the input text (same wrapped lines, same fixed canvas,
colors and font on every loop iteration), so it is modelled by the wrapped
line list drawn onto it. -/
def renderFrame (text : String) : List String :=
  wrapWords (pySplit text)

/-- The clip assembled at main.py lines 309-311: the frame sequence, the
frame rate passed to `ImageSequenceClip`, and the cross-fade durations of
`crossfadein(0.6)` / `crossfadeout(0.6)` in seconds. -/
structure Clip where
  frames : List (List String)
  fps : Nat
  fadeIn : ℚ
  fadeOut : ℚ
deriving DecidableEq, Repr

/-- `render_text_video_with_pil` (main.py lines 255-316).  `renderOk` models
whether the body of the `try` block (font loading aside, which has its own
fallback) completes without raising; on an exception the function returns
`False` (lines 314-316).  The result pairs the returned boolean with the
clip written out, `none` when nothing was rendered. -/
def render_text_video_with_pil (caps : Caps) (renderOk : Bool) (text : String)
    (duration fps : Nat) : Bool × Option Clip :=
  if !caps.moviepy then (false, none)
  else if !caps.pil then (false, none)
  else if !renderOk then (false, none)
  else
    let num_frames := duration * fps
    let frames := (List.range num_frames).map fun _ => renderFrame text
    (true, some { frames := frames, fps := fps, fadeIn := 0.6, fadeOut := 0.6 })

/-! ## Pika provider client (`src/main.py` lines 155-250) -/

/-- One poll response (main.py lines 207-218): the HTTP status of the `GET`,
whether `sresp.json()` parses (a parse failure raises and is caught by the
outer handler, aborting the whole call), the `"status"` field when present
as a string, and the `"video_url"` field when present. -/
structure PollResponse where
  status : Nat
  parseOk : Bool
  jobStatus : Option String
  video_url : Option String
deriving DecidableEq, Repr

/-- Terminal result of the poll loop: the `succeeded` branch returning the
download result (main.py line 214), the definitive `failed`/`error` branch
(lines 215-217), an exception escaping the loop, or exhaustion of the 60
iterations (lines 219-220). -/
inductive PollOutcome where
  | gotResult (r : Option String)
  | jobFailed
  | exn
  | timedOut
deriving DecidableEq, Repr

/-- The poll loop `for attempt in range(60)` (main.py lines 206-218), with
`resp k` the response to the `k`-th poll and `dl` the behaviour of
`_download_video`.  The returned number counts the `GET` requests issued.
A non-200 poll sleeps and continues (lines 208-210); a 200 poll whose body
names no terminal status sleeps and continues (line 218). -/
def pollLoop (resp : Nat → PollResponse) (dl : String → Option String) :
    Nat → Nat → PollOutcome × Nat
  | _, 0 => (.timedOut, 0)
  | i, fuel + 1 =>
    let r := resp i
    if r.status ≠ 200 then
      let rest := pollLoop resp dl (i + 1) fuel
      (rest.1, rest.2 + 1)
    else if !r.parseOk then (.exn, 1)
    else if r.jobStatus = some "succeeded" ∧ r.video_url.isSome then
      (.gotResult (dl (r.video_url.getD "")), 1)
    else if r.jobStatus = some "failed" ∨ r.jobStatus = some "error" then
      (.jobFailed, 1)
    else
      let rest := pollLoop resp dl (i + 1) fuel
      (rest.1, rest.2 + 1)

/-- The payload shapes `generate_video` looks for in a 2xx submit body
(main.py lines 195-202): a top-level `"video_url"`, a dict under `"result"`
carrying `"video_url"`, and a `"job_id"`.  Each field is `some` exactly when
the corresponding shape test of the source succeeds. -/
structure PikaData where
  video_url : Option String
  result_video_url : Option String
  job_id : Option String
deriving DecidableEq, Repr

/-- Environment of one `PikaHelper.generate_video` call: the submit exchange
(`none` models `requests.post` raising, caught at lines 227-232; a 2xx body
that fails to parse is `some (status, none)`), the poll responses, and the
behaviour of `_download_video` (which returns `None` on any failure,
lines 234-250). -/
structure PikaEnv where
  submit : Option (Nat × Option PikaData)
  poll : Nat → PollResponse
  download : String → Option String

/-- Result of one `generate_video` call, instrumented with the number of
submit `POST` requests and poll `GET` requests issued. -/
structure PikaCallResult where
  result : Option String
  submitPosts : Nat
  pollGets : Nat
deriving DecidableEq, Repr

/-- `PikaHelper.generate_video` (main.py lines 164-232).  The function
issues at most one submit `POST` (line 187, not enclosed in any loop); a
non-2xx status, a parse failure, an exception and an unrecognized body shape
all return `None`; the three recognized shapes are tried in source order. -/
def generate_video (available : Bool) (env : PikaEnv) : PikaCallResult :=
  if !available then ⟨none, 0, 0⟩
  else
    match env.submit with
    | none => ⟨none, 1, 0⟩
    | some (status, body) =>
      if status ≠ 200 ∧ status ≠ 201 then ⟨none, 1, 0⟩
      else
        match body with
        | none => ⟨none, 1, 0⟩
        | some data =>
          match data.video_url with
          | some u => ⟨env.download u, 1, 0⟩
          | none =>
            match data.result_video_url with
            | some u => ⟨env.download u, 1, 0⟩
            | none =>
              match data.job_id with
              | some _ =>
                let p := pollLoop env.poll env.download 0 60
                match p.1 with
                | .gotResult r => ⟨r, 1, p.2⟩
                | _ => ⟨none, 1, p.2⟩
              | none => ⟨none, 1, 0⟩

/-! ## Agents entry point (`src/agents/video_agent.py`, `orchestrator.py`) -/

/-- Environment of one `VideoAgent.generate` call: the HTTP status, the
parsed body (`none` models `response.json()` raising, caught at lines 36-38;
`some v` a parsed body whose `"video"` value is `v`), and whether the base64
decode and file write succeed (a failure raises and is caught by the same
handler). -/
structure VAEnv where
  status : Nat
  body : Option (Option String)
  decodeOk : Bool
deriving DecidableEq, Repr

/-- `VideoAgent.generate` (video_agent.py lines 15-40): non-200 returns
`None`; a 200 body without a `"video"` key prints a warning and returns
`None`; a decodable `"video"` payload is written to the fixed session
path. -/
def VideoAgent_generate (env : VAEnv) : Option String :=
  if env.status ≠ 200 then none
  else
    match env.body with
    | none => none
    | some none => none
    | some (some _) =>
      if env.decodeOk then some "generated_videos/session.mp4" else none

/-- Outcome of one `Orchestrator.run` invocation: the remote artifact path
if any, and whether a local fallback video or a text record was produced.
The orchestrator source contains no call to any local renderer or to any
text persistence, so the last two fields are set by no code path. -/
structure OrchOutcome where
  videoArtifact : Option String
  localVideoRendered : Bool
  textRecordPersisted : Bool
deriving DecidableEq, Repr

/-- `Orchestrator.run` (orchestrator.py lines 14-33): an empty or absent
transcription returns early; otherwise the video agent is invoked once and
its result is only printed — no fallback tier exists in this entry point. -/
def Orchestrator_run (speechText : Option String) (va : VAEnv) : OrchOutcome :=
  match speechText with
  | none => ⟨none, false, false⟩
  | some t =>
    if t = "" then ⟨none, false, false⟩
    else ⟨VideoAgent_generate va, false, false⟩

/-! ## Per-request pipeline (`src/main.py` lines 370-400) -/

/-- The three terminal outcomes of one request: a downloaded provider video,
a locally rendered fallback video, or the text record appended to
`recognized_text.txt`. -/
inductive Outcome where
  | REMOTE_VIDEO
  | LOCAL_VIDEO
  | TEXT_FALLBACK
deriving DecidableEq, Repr

/-- Environment of one request through `SceneGeneratorApp.run`'s body
(main.py lines 370-400): the Gemini collaborator (`none` when `self.gemini`
is `None`, line 324), Pika availability and exchange behaviour, the local
capabilities, whether the render try-block succeeds, whether the text-log
write succeeds (a failed write raises and is caught by the loop's generic
handler at lines 411-412, so the run continues either way), the rendering of
`datetime.now()` used in the log line, and the output filename. -/
structure RequestEnv where
  gemini : Option GeminiCall
  pikaKey : Bool
  pika : PikaEnv
  caps : Caps
  renderOk : Bool
  persistOk : Bool
  ts : String
  outPath : String

/-- The per-request path of `SceneGeneratorApp.run` (main.py lines 370-400):
build the scene prompt, attempt Pika when available, otherwise render the
fallback text video, otherwise append `f"{datetime.now()}: {text}\n"` to the
text log.  Returns the terminal outcome, the artifact path, and the new
text-log contents (one entry per line). -/
def runRequest (env : RequestEnv) (text : String) (log : List String) :
    Outcome × Option String × List String :=
  let scene_prompt :=
    match env.gemini with
    | some call => build_cinematic_prompt call text
    | none => cinematic_template text
  let video_path :=
    if env.pikaKey then (generate_video env.pikaKey env.pika).result else none
  match video_path with
  | some p => (.REMOTE_VIDEO, some p, log)
  | none =>
    let success :=
      (render_text_video_with_pil env.caps env.renderOk scene_prompt
        DEFAULT_DURATION FPS).1
    if success then (.LOCAL_VIDEO, some env.outPath, log)
    else (.TEXT_FALLBACK, none,
      if env.persistOk then log ++ [env.ts ++ ": " ++ text] else log)

/-! ## Concrete environments used to exercise the theorems -/

/-- A poll endpoint that answers HTTP 500 to every poll. -/
def pendingPoll : Nat → PollResponse := fun _ => ⟨500, true, none, none⟩

/-- A `_download_video` that fails on every URL. -/
def noDownload : String → Option String := fun _ => none

/-- A provider exchange whose submit `POST` raises a transient network
error (`requests.RequestException`, caught at main.py lines 227-229). -/
def transientEnv : PikaEnv := ⟨none, pendingPoll, noDownload⟩

/-- A provider exchange whose submit returns HTTP 200 with a body matching
none of the recognized shapes. -/
def shapelessEnv : PikaEnv := ⟨some (200, some ⟨none, none, none⟩), pendingPoll, noDownload⟩

/-- A request environment with no Gemini helper, no Pika key, both local
rendering capabilities absent, and a writable text log. -/
def disabledRequestEnv : RequestEnv :=
  ⟨none, false, transientEnv, ⟨false, false⟩, false, true,
    "2025-01-01 00:00:00.000000", "videos/scene_20250101_000000.mp4"⟩

/-- A video-agent exchange returning HTTP 200 with a body that carries no
`"video"` key. -/
def vaNoVideoEnv : VAEnv := ⟨200, some none, true⟩

/-! ## Helper lemmas about the word wrap -/

lemma length_pos_ne_empty {s : String} (h : 0 < s.length) : s ≠ "" := by
  intro he
  rw [he] at h
  simp at h

lemma lineOf_cons_cons (x y : String) (ys : List String) :
    lineOf (x :: y :: ys) = lineOf ((x ++ " " ++ y) :: ys) := rfl

lemma head_length_le_lineOf (x : String) (xs : List String) :
    x.length ≤ (lineOf (x :: xs)).length := by
  induction xs generalizing x with
  | nil => simp [lineOf]
  | cons y ys ih =>
    rw [lineOf_cons_cons]
    refine le_trans ?_ (ih (x ++ " " ++ y))
    simp [String.length_append]
    omega

lemma lineOf_ne_empty {x : String} (hx : 0 < x.length) (xs : List String) :
    lineOf (x :: xs) ≠ "" := by
  have h := head_length_le_lineOf x xs
  intro he
  rw [he] at h
  simp at h
  omega

lemma mem_length_le_lineOf_aux (xs : List String) :
    ∀ (x w : String), (w = x ∨ w ∈ xs) → w.length ≤ (lineOf (x :: xs)).length := by
  induction xs with
  | nil =>
    intro x w h
    rcases h with h | h
    · subst h; simp [lineOf]
    · simp at h
  | cons y ys ih =>
    intro x w h
    rw [lineOf_cons_cons]
    have hxy : x.length ≤ (x ++ " " ++ y).length := by
      simp [String.length_append]
      omega
    have hyy : y.length ≤ (x ++ " " ++ y).length := by
      simp [String.length_append]
    rcases h with h | h
    · subst h
      exact le_trans hxy (head_length_le_lineOf _ ys)
    · rcases List.mem_cons.mp h with h | h
      · subst h
        exact le_trans hyy (head_length_le_lineOf _ ys)
      · exact ih (x ++ " " ++ y) w (Or.inr h)

lemma mem_length_le_lineOf {w : String} {g : List String} (hm : w ∈ g) :
    w.length ≤ (lineOf g).length := by
  cases g with
  | nil => simp at hm
  | cons x xs =>
    rcases List.mem_cons.mp hm with h | h
    · exact mem_length_le_lineOf_aux xs x w (Or.inl h)
    · exact mem_length_le_lineOf_aux xs x w (Or.inr h)

lemma lineOf_append_single (g : List String) (w : String)
    (hg : ∀ x ∈ g, 0 < x.length) :
    lineOf (g ++ [w]) = stripJoin (lineOf g) w := by
  cases g with
  | nil => simp [lineOf, stripJoin]
  | cons x xs =>
    have hx : 0 < x.length := hg x (List.mem_cons_self x xs)
    have hne : lineOf (x :: xs) ≠ "" := lineOf_ne_empty hx xs
    rw [stripJoin, if_neg hne]
    show lineOf (x :: (xs ++ [w])) = lineOf (x :: xs) ++ " " ++ w
    simp [lineOf, List.foldl_append]

lemma lineOf_eq_empty_iff {G : List String} (hG : ∀ x ∈ G, 0 < x.length) :
    lineOf G = "" ↔ G = [] := by
  cases G with
  | nil => simp [lineOf]
  | cons x xs =>
    constructor
    · intro h
      exact absurd h (lineOf_ne_empty (hG x (List.mem_cons_self x xs)) xs)
    · intro h
      cases h

lemma wrapFold_corr :
    ∀ (ws : List String), (∀ w ∈ ws, 0 < w.length) →
    ∀ (L : List (List String)) (G : List String), (∀ x ∈ G, 0 < x.length) →
      ws.foldl wrapStep (L.map lineOf, lineOf G) =
        ((ws.foldl wrapStepS (L, G)).1.map lineOf,
          lineOf (ws.foldl wrapStepS (L, G)).2)
      ∧ ∀ x ∈ (ws.foldl wrapStepS (L, G)).2, 0 < x.length := by
  intro ws
  induction ws with
  | nil =>
    intro _ L G hG
    exact ⟨rfl, hG⟩
  | cons w rest ih =>
    intro hws L G hG
    have hw : 0 < w.length := hws w (List.mem_cons_self _ _)
    have hrest : ∀ x ∈ rest, 0 < x.length := fun x hx => hws x (List.mem_cons_of_mem _ hx)
    rw [List.foldl_cons, List.foldl_cons]
    by_cases hc : (lineOf G).length + w.length + 1 ≤ 40
    · have h1 : wrapStep (L.map lineOf, lineOf G) w = (L.map lineOf, lineOf (G ++ [w])) := by
        simp only [wrapStep, if_pos hc, lineOf_append_single G w hG]
      have h2 : wrapStepS (L, G) w = (L, G ++ [w]) := by
        simp only [wrapStepS, if_pos hc]
      rw [h1, h2]
      refine ih hrest L (G ++ [w]) ?_
      intro x hx
      rcases List.mem_append.mp hx with h | h
      · exact hG x h
      · simp at h; subst h; exact hw
    · have h1 : wrapStep (L.map lineOf, lineOf G) w = ((L ++ [G]).map lineOf, lineOf [w]) := by
        simp only [wrapStep, if_neg hc, List.map_append, List.map_cons, List.map_nil]
        rfl
      have h2 : wrapStepS (L, G) w = (L ++ [G], [w]) := by
        simp only [wrapStepS, if_neg hc]
      rw [h1, h2]
      refine ih hrest (L ++ [G]) [w] ?_
      intro x hx
      simp at hx; subst hx; exact hw

lemma wrapFoldS_join :
    ∀ (ws : List String) (L : List (List String)) (G : List String),
      (ws.foldl wrapStepS (L, G)).1.flatten ++ (ws.foldl wrapStepS (L, G)).2 =
        L.flatten ++ G ++ ws := by
  intro ws
  induction ws with
  | nil => intro L G; simp
  | cons w rest ih =>
    intro L G
    rw [List.foldl_cons]
    by_cases hc : (lineOf G).length + w.length + 1 ≤ 40
    · have h2 : wrapStepS (L, G) w = (L, G ++ [w]) := by
        simp only [wrapStepS, if_pos hc]
      rw [h2, ih L (G ++ [w])]
      simp
    · have h2 : wrapStepS (L, G) w = (L ++ [G], [w]) := by
        simp only [wrapStepS, if_neg hc]
      rw [h2, ih (L ++ [G]) [w]]
      simp

lemma wrapFold_fst_extends :
    ∀ (ws : List String) (L : List String) (s : String),
      ∃ t, (ws.foldl wrapStep (L, s)).1 = L ++ t := by
  intro ws
  induction ws with
  | nil => intro L s; exact ⟨[], by simp⟩
  | cons w rest ih =>
    intro L s
    rw [List.foldl_cons]
    by_cases hc : s.length + w.length + 1 ≤ 40
    · have h1 : wrapStep (L, s) w = (L, stripJoin s w) := by
        simp only [wrapStep, if_pos hc]
      rw [h1]
      exact ih L (stripJoin s w)
    · have h1 : wrapStep (L, s) w = (L ++ [s], w) := by
        simp only [wrapStep, if_neg hc]
      rw [h1]
      obtain ⟨t, ht⟩ := ih (L ++ [s]) w
      exact ⟨[s] ++ t, by rw [ht, List.append_assoc]⟩

/-! ## Helper lemmas about the renderer and the poll loop -/

lemma render_fails_of (caps : Caps) (rOk : Bool) (t : String) (d f : Nat)
    (h : caps.moviepy = false ∨ caps.pil = false ∨ rOk = false) :
    render_text_video_with_pil caps rOk t d f = (false, none) := by
  rcases h with h | h | h <;> simp [render_text_video_with_pil, h]

/-- A poll response that leaves the loop in its transient/pending path:
either a non-200 status, or a parsed 200 body naming no terminal status. -/
def pendingResponse (r : PollResponse) : Prop :=
  r.status ≠ 200 ∨
    (r.parseOk = true ∧
      ¬(r.jobStatus = some "succeeded" ∧ r.video_url.isSome = true) ∧
      r.jobStatus ≠ some "failed" ∧ r.jobStatus ≠ some "error")

lemma pollLoop_step_nonTwoHundred (resp : Nat → PollResponse)
    (dl : String → Option String) (i fuel : Nat)
    (hs : (resp i).status ≠ 200) :
    pollLoop resp dl i (fuel + 1) =
      ((pollLoop resp dl (i + 1) fuel).1, (pollLoop resp dl (i + 1) fuel).2 + 1) := by
  simp only [pollLoop]
  rw [if_pos hs]

lemma pollLoop_pending (resp : Nat → PollResponse) (dl : String → Option String) :
    ∀ (fuel i : Nat), (∀ k, i ≤ k → k < i + fuel → pendingResponse (resp k)) →
      pollLoop resp dl i fuel = (PollOutcome.timedOut, fuel) := by
  intro fuel
  induction fuel with
  | zero => intro i _; rfl
  | succ n ih =>
    intro i hall
    have hi : pendingResponse (resp i) := hall i (Nat.le_refl i) (by omega)
    have hrec : pollLoop resp dl (i + 1) n = (PollOutcome.timedOut, n) := by
      refine ih (i + 1) ?_
      intro k hk1 hk2
      exact hall k (by omega) (by omega)
    by_cases hs : (resp i).status ≠ 200
    · rw [pollLoop_step_nonTwoHundred resp dl i n hs, hrec]
    · rcases hi with hi | ⟨hp, hns, hnf, hne⟩
      · exact absurd hi hs
      · simp only [pollLoop]
        rw [if_neg hs, hp]
        simp only [Bool.not_true, Bool.false_eq_true, if_false]
        rw [if_neg hns, if_neg ?_, hrec]
        rintro (h | h)
        · exact hnf h
        · exact hne h

/-! ## Claim theorems -/

/-- C1: for every request entering the generation stage, the per-request
path of `SceneGeneratorApp.run` (provider attempt, local fallback render,
text persistence) terminates — the embedding is a total function, the only
internal loop being the fuel-bounded 60-iteration poll loop — and produces
exactly one terminal outcome, which is one of the three defined values
`REMOTE_VIDEO`, `LOCAL_VIDEO`, `TEXT_FALLBACK`. -/
theorem C1_pipeline_terminal_outcome (env : RequestEnv) (text : String)
    (log : List String) :
    (∃! r, runRequest env text log = r) ∧
    ((runRequest env text log).1 = Outcome.REMOTE_VIDEO ∨
      (runRequest env text log).1 = Outcome.LOCAL_VIDEO ∨
      (runRequest env text log).1 = Outcome.TEXT_FALLBACK) := by
  refine ⟨⟨runRequest env text log, rfl, fun y hy => hy.symm⟩, ?_⟩
  cases h : (runRequest env text log).1
  · exact Or.inl rfl
  · exact Or.inr (Or.inl rfl)
  · exact Or.inr (Or.inr rfl)

/-- C7: if either local capability (Pillow image composition, MoviePy video
muxing) is unavailable, `render_text_video_with_pil` returns `False` with no
clip, uniformly in the text, the duration and the behaviour of the rendering
body — the capability check precedes any rendering work (main.py lines
260-265 come before the `try` block that builds frames). -/
theorem C7_capability_check_fails_fast (caps : Caps) (rOk : Bool) (t : String)
    (d f : Nat) (h : caps.moviepy = false ∨ caps.pil = false) :
    render_text_video_with_pil caps rOk t d f = (false, none) := by
  refine render_fails_of caps rOk t d f ?_
  rcases h with h | h
  · exact Or.inl h
  · exact Or.inr (Or.inl h)

/-- Witness for C7 at a concrete input: MoviePy absent, Pillow present. -/
theorem C7_capability_check_fails_fast_witness :
    ((Caps.mk false true).moviepy = false ∨ (Caps.mk false true).pil = false) ∧
    render_text_video_with_pil (Caps.mk false true) true "hello" 10 24 = (false, none) :=
  ⟨Or.inl rfl,
    C7_capability_check_fails_fast (Caps.mk false true) true "hello" 10 24 (Or.inl rfl)⟩

/-- C9: in the agents entry point, when `VideoAgent.generate` returns no
artifact, `Orchestrator.run` completes with no artifact of any tier: the
orchestrator contains no local-render and no text-persistence call, so
neither fallback tier runs. -/
theorem C9_orchestrator_no_fallback (st : Option String) (va : VAEnv)
    (hnone : VideoAgent_generate va = none) :
    Orchestrator_run st va = ⟨none, false, false⟩ := by
  rcases st with _ | t
  · rfl
  · simp only [Orchestrator_run]
    split
    · rfl
    · rw [hnone]

/-- Witness for C9 at a concrete input: a transcribed utterance and a
provider answering 200 with no `"video"` key. -/
theorem C9_orchestrator_no_fallback_witness :
    VideoAgent_generate vaNoVideoEnv = none ∧
    Orchestrator_run (some "I have stage fright") vaNoVideoEnv = ⟨none, false, false⟩ :=
  ⟨rfl, C9_orchestrator_no_fallback (some "I have stage fright") vaNoVideoEnv rfl⟩

/-- C10: the fallback renderer's word wrap never splits a word: the emitted
lines are exactly the single-space joins of consecutive groups of whole
input words, so every word appears whole on some line; any word longer than
the 40-character limit yields a line exceeding that limit; and when the
first word alone exceeds the limit the first emitted line is the empty
string. -/
theorem C10_wrap_never_splits_words (ws : List String)
    (h : ∀ w ∈ ws, 0 < w.length) :
    wrapWords ws = (wrapGroups ws).map lineOf
    ∧ (wrapGroups ws).flatten = ws
    ∧ (∀ w ∈ ws, 40 < w.length → ∃ ln ∈ wrapWords ws, 40 < ln.length)
    ∧ ∀ w rest, ws = w :: rest → 40 < w.length →
        (wrapWords ws).head? = some "" := by
  obtain ⟨heq, hpos⟩ := wrapFold_corr ws h [] [] (by intro x hx; simp at hx)
  simp only [List.map_nil] at heq
  rw [show lineOf [] = "" from rfl] at heq
  have hline := lineOf_eq_empty_iff hpos
  have hW : wrapWords ws =
      if lineOf (ws.foldl wrapStepS ([], [])).2 = ""
      then (ws.foldl wrapStepS ([], [])).1.map lineOf
      else (ws.foldl wrapStepS ([], [])).1.map lineOf ++
        [lineOf (ws.foldl wrapStepS ([], [])).2] := by
    simp only [wrapWords]
    rw [heq]
  have hG : wrapGroups ws =
      if (ws.foldl wrapStepS ([], [])).2 = []
      then (ws.foldl wrapStepS ([], [])).1
      else (ws.foldl wrapStepS ([], [])).1 ++ [(ws.foldl wrapStepS ([], [])).2] := rfl
  have p1 : wrapWords ws = (wrapGroups ws).map lineOf := by
    rw [hW, hG]
    by_cases hRe : (ws.foldl wrapStepS ([], [])).2 = []
    · rw [if_pos hRe, if_pos (hline.mpr hRe)]
    · rw [if_neg hRe, if_neg (fun hh => hRe (hline.mp hh))]
      simp
  have hj := wrapFoldS_join ws [] []
  simp only [List.flatten_nil, List.nil_append] at hj
  have p2 : (wrapGroups ws).flatten = ws := by
    rw [hG]
    by_cases hRe : (ws.foldl wrapStepS ([], [])).2 = []
    · rw [if_pos hRe]
      rw [hRe, List.append_nil] at hj
      exact hj
    · rw [if_neg hRe]
      rw [List.flatten_append]
      simpa using hj
  refine ⟨p1, p2, ?_, ?_⟩
  · intro w hw hw40
    have hwj : w ∈ (wrapGroups ws).flatten := by rw [p2]; exact hw
    obtain ⟨G, hGmem, hwG⟩ := List.mem_flatten.mp hwj
    refine ⟨lineOf G, ?_, lt_of_lt_of_le hw40 (mem_length_le_lineOf hwG)⟩
    rw [p1]
    exact List.mem_map_of_mem lineOf hGmem
  · intro w rest hws hw40
    subst hws
    have hc : ¬(("" : String).length + w.length + 1 ≤ 40) := by
      rw [show ("" : String).length = 0 from rfl]
      omega
    have hstep : wrapStep ([], "") w = ([""], w) := by
      simp only [wrapStep, if_neg hc]
      rfl
    obtain ⟨t, ht⟩ := wrapFold_fst_extends rest [""] w
    simp only [wrapWords, List.foldl_cons, hstep]
    by_cases h2 : (rest.foldl wrapStep ([""], w)).2 = ""
    · rw [if_pos h2, ht]
      rfl
    · rw [if_neg h2, ht]
      rfl

/-- Witness for C10 at a concrete input: two ordinary words. -/
theorem C10_wrap_never_splits_words_witness :
    (∀ w ∈ (["hello", "world"] : List String), 0 < w.length) ∧
    (wrapWords ["hello", "world"] = (wrapGroups ["hello", "world"]).map lineOf
      ∧ (wrapGroups ["hello", "world"]).flatten = ["hello", "world"]
      ∧ (∀ w ∈ (["hello", "world"] : List String), 40 < w.length →
          ∃ ln ∈ wrapWords ["hello", "world"], 40 < ln.length)
      ∧ ∀ w rest, (["hello", "world"] : List String) = w :: rest →
          40 < w.length → (wrapWords ["hello", "world"]).head? = some "") :=
  ⟨by decide, C10_wrap_never_splits_words ["hello", "world"] (by decide)⟩

/-- C2 counterexample: the claim asserts a bounded retry policy with
randomized exponential backoff (up to 6 submit attempts) around the
submit+poll cycle for transient errors.  The source has no retry loop of any
kind around its single `requests.post` (main.py line 187): for the concrete
provider environment whose first submit fails with a transient network
exception, exactly one submit attempt is made — not up to 6 — before the
provider is abandoned. -/
theorem C2_no_retry_counterexample :
    (generate_video true transientEnv).result = none ∧
    (generate_video true transientEnv).submitPosts = 1 ∧
    ¬2 ≤ (generate_video true transientEnv).submitPosts := by
  refine ⟨rfl, rfl, ?_⟩
  intro habs
  rw [show (generate_video true transientEnv).submitPosts = 1 from rfl] at habs
  omega

/-- C2 amended: the pipeline makes at most one submit attempt per provider
per request (no retry, no backoff), and after any failed provider call —
transient or definitive — it advances to the next tier (local render or
text fallback) within one transition. -/
theorem C2_single_submit_then_advance (b : Bool) (env : PikaEnv)
    (renv : RequestEnv) (text : String) (log : List String)
    (hfail : (generate_video renv.pikaKey renv.pika).result = none) :
    (generate_video b env).submitPosts ≤ 1 ∧
    ((runRequest renv text log).1 = Outcome.LOCAL_VIDEO ∨
      (runRequest renv text log).1 = Outcome.TEXT_FALLBACK) := by
  constructor
  · unfold generate_video
    repeat' split
    all_goals simp
    all_goals cases hp : (pollLoop env.poll env.download 0 60).1 <;> simp
  · have hvp : (if renv.pikaKey then (generate_video renv.pikaKey renv.pika).result
        else none) = none := by
      split
      · exact hfail
      · rfl
    simp only [runRequest, hvp]
    split
    · exact Or.inl rfl
    · exact Or.inr rfl

/-- Witness for C2's amended claim at a concrete input: a request with Pika
disabled and a transient-failure provider environment. -/
theorem C2_single_submit_then_advance_witness :
    (generate_video disabledRequestEnv.pikaKey disabledRequestEnv.pika).result = none ∧
    ((generate_video true transientEnv).submitPosts ≤ 1 ∧
      ((runRequest disabledRequestEnv "I have stage fright" []).1 = Outcome.LOCAL_VIDEO ∨
        (runRequest disabledRequestEnv "I have stage fright" []).1 = Outcome.TEXT_FALLBACK)) :=
  ⟨rfl, C2_single_submit_then_advance true transientEnv disabledRequestEnv
    "I have stage fright" [] rfl⟩

/-- C3: a non-2xx poll response never terminates the attempt — the loop
recurses, consuming exactly one slot of the attempt budget — and when every
poll within the budget fails or stays pending, the attempt reaches
`timedOut` after exactly 60 poll requests and no more. -/
theorem C3_poll_transient_and_timeout (resp : Nat → PollResponse)
    (dl : String → Option String)
    (hall : ∀ k, k < 60 → pendingResponse (resp k)) :
    (∀ i fuel, (resp i).status ≠ 200 →
      pollLoop resp dl i (fuel + 1) =
        ((pollLoop resp dl (i + 1) fuel).1, (pollLoop resp dl (i + 1) fuel).2 + 1)) ∧
    pollLoop resp dl 0 60 = (PollOutcome.timedOut, 60) := by
  constructor
  · intro i fuel hs
    exact pollLoop_step_nonTwoHundred resp dl i fuel hs
  · refine pollLoop_pending resp dl 60 0 ?_
    intro k _ hk
    exact hall k (by omega)

/-- Witness for C3 at a concrete input: a poll endpoint answering 500
forever. -/
theorem C3_poll_transient_and_timeout_witness :
    (∀ k, k < 60 → pendingResponse (pendingPoll k)) ∧
    ((∀ i fuel, (pendingPoll i).status ≠ 200 →
      pollLoop pendingPoll noDownload i (fuel + 1) =
        ((pollLoop pendingPoll noDownload (i + 1) fuel).1,
          (pollLoop pendingPoll noDownload (i + 1) fuel).2 + 1)) ∧
      pollLoop pendingPoll noDownload 0 60 = (PollOutcome.timedOut, 60)) :=
  ⟨fun k _ => Or.inl (by simp [pendingPoll]),
    C3_poll_transient_and_timeout pendingPoll noDownload
      (fun k _ => Or.inl (by simp [pendingPoll]))⟩

/-- C4 counterexample: the claim asserts the built prompt contains only
printable, provider-safe characters for every non-empty `source_text`.  The
template embeds `source_text` verbatim with no sanitization: for the
non-empty source text `"\n"` the builder's output (collaborator unavailable,
so the local template runs) contains the non-printable newline character. -/
theorem C4_unsanitized_counterexample :
    ("\n" : String) ≠ "" ∧
    '\n' ∈ (build_cinematic_prompt GeminiCall.unavailable "\n").data ∧
    printableChar '\n' = false := by
  refine ⟨by decide, ?_, by decide⟩
  show '\n' ∈ (cinematic_template "\n").data
  rw [cinematic_template, String.data_append, String.data_append]
  exact List.mem_append.mpr (Or.inl (List.mem_append.mpr (Or.inr (by decide))))

set_option maxRecDepth 4000 in
/-- C4 amended: for every non-empty `source_text` — printable or not — when
the rewriting collaborator is unavailable or raises, the builder never
fails: it returns the non-empty local template, exactly the fixed printable
template text with `source_text` embedded verbatim, of length
fixed-part + input + 1; every character of `source_text` (non-printable ones
included) appears verbatim in the output, and the output is all-printable
exactly when `source_text` is (the builder applies no sanitization or
truncation of its own). -/
theorem C4_template_fallback_never_fails (call : GeminiCall) (user_text : String)
    (hne : user_text ≠ "")
    (hcall : call = GeminiCall.unavailable ∨ call = GeminiCall.raises) :
    build_cinematic_prompt call user_text ≠ "" ∧
    build_cinematic_prompt call user_text = templateHead ++ user_text ++ "\"" ∧
    (build_cinematic_prompt call user_text).length =
      templateHead.length + user_text.length + 1 ∧
    (∀ c ∈ user_text.data, c ∈ (build_cinematic_prompt call user_text).data) ∧
    ((∀ c ∈ (build_cinematic_prompt call user_text).data, printableChar c = true) ↔
      ∀ c ∈ user_text.data, printableChar c = true) := by
  have heq : build_cinematic_prompt call user_text = templateHead ++ user_text ++ "\"" := by
    rcases hcall with h | h <;> subst h <;> rfl
  have hlen : (build_cinematic_prompt call user_text).length =
      templateHead.length + user_text.length + 1 := by
    rw [heq, String.length_append, String.length_append]
    rfl
  have hmem : ∀ c ∈ user_text.data, c ∈ (build_cinematic_prompt call user_text).data := by
    intro c hc
    rw [heq, String.data_append, String.data_append]
    exact List.mem_append.mpr (Or.inl (List.mem_append.mpr (Or.inr hc)))
  refine ⟨?_, heq, hlen, hmem, ?_, ?_⟩
  · refine length_pos_ne_empty ?_
    rw [hlen]
    omega
  · intro hall c hc
    exact hall c (hmem c hc)
  · intro hprint c hc
    rw [heq, String.data_append, String.data_append] at hc
    rcases List.mem_append.mp hc with hc | hc
    · rcases List.mem_append.mp hc with hc | hc
      · have hall : templateHead.data.all printableChar = true := by decide
        exact List.all_eq_true.mp hall c hc
      · exact hprint c hc
    · have : c = '"' := by simpa using hc
      subst this
      decide

/-- Witness for C4's amended claim at a concrete input: the collaborator is
unavailable and the source text is a short sentence containing a
non-printable newline, exercising the amendment's verbatim pass-through. -/
theorem C4_template_fallback_never_fails_witness :
    ("stage\nfright" : String) ≠ "" ∧
    (GeminiCall.unavailable = GeminiCall.unavailable ∨
      GeminiCall.unavailable = GeminiCall.raises) ∧
    (build_cinematic_prompt GeminiCall.unavailable "stage\nfright" ≠ "" ∧
      build_cinematic_prompt GeminiCall.unavailable "stage\nfright" =
        templateHead ++ "stage\nfright" ++ "\"" ∧
      (build_cinematic_prompt GeminiCall.unavailable "stage\nfright").length =
        templateHead.length + "stage\nfright".length + 1 ∧
      (∀ c ∈ ("stage\nfright" : String).data,
        c ∈ (build_cinematic_prompt GeminiCall.unavailable "stage\nfright").data) ∧
      ((∀ c ∈ (build_cinematic_prompt GeminiCall.unavailable "stage\nfright").data,
          printableChar c = true) ↔
        ∀ c ∈ ("stage\nfright" : String).data, printableChar c = true)) :=
  ⟨by decide, Or.inl rfl,
    C4_template_fallback_never_fails GeminiCall.unavailable "stage\nfright"
      (by decide) (Or.inl rfl)⟩

/-- C5: for a 2xx submit response, success is decided by the ordered shape
list of `generate_video` — top-level `video_url` first, then the nested
`result.video_url`, then a `job_id` — and a 2xx body matching none of the
shapes yields no artifact (`None`) rather than raising; likewise
`VideoAgent.generate` returns `None` for a 200 body without a `"video"`
key. -/
theorem C5_unrecognized_shape_fails (env : PikaEnv) (status : Nat)
    (body : PikaData) (hsub : env.submit = some (status, some body))
    (h2xx : status = 200 ∨ status = 201) :
    ((body.video_url = none ∧ body.result_video_url = none ∧ body.job_id = none) →
      (generate_video true env).result = none) ∧
    (∀ u, body.video_url = some u →
      (generate_video true env).result = env.download u) ∧
    (∀ u, body.video_url = none → body.result_video_url = some u →
      (generate_video true env).result = env.download u) ∧
    (∀ va : VAEnv, va.status = 200 → va.body = some none →
      VideoAgent_generate va = none) := by
  have hs : ¬(status ≠ 200 ∧ status ≠ 201) := by
    rcases h2xx with h | h <;> simp [h]
  refine ⟨?_, ?_, ?_, ?_⟩
  · rintro ⟨h1, h2, h3⟩
    simp [generate_video, hsub, hs, h1, h2, h3]
  · intro u hu
    simp [generate_video, hsub, hs, hu]
  · intro u h1 h2
    simp [generate_video, hsub, hs, h1, h2]
  · intro va h200 hb
    simp [VideoAgent_generate, h200, hb]

/-- Witness for C5 at a concrete input: a 200 submit answer whose body
matches no recognized shape. -/
theorem C5_unrecognized_shape_fails_witness :
    shapelessEnv.submit = some (200, some ⟨none, none, none⟩) ∧
    ((200 : Nat) = 200 ∨ (200 : Nat) = 201) ∧
    (((⟨none, none, none⟩ : PikaData).video_url = none ∧
        (⟨none, none, none⟩ : PikaData).result_video_url = none ∧
        (⟨none, none, none⟩ : PikaData).job_id = none) →
      (generate_video true shapelessEnv).result = none) :=
  ⟨rfl, Or.inl rfl,
    (C5_unrecognized_shape_fails shapelessEnv 200 ⟨none, none, none⟩ rfl
      (Or.inl rfl)).1⟩

/-- C6: when the provider yields nothing and the fallback renderer fails,
the request degrades to the text tier: the outcome is `TEXT_FALLBACK` with
no artifact path; when the log write succeeds, exactly one line
`<timestamp>: <source_text>` — ending in the exact source text — is appended
to the log; and even when the write fails the request still terminates with
the same outcome (the raised error is caught by the loop's generic handler),
so the final stage never fails the pipeline. -/
theorem C6_text_fallback_appends_line (env : RequestEnv) (text : String)
    (log : List String) (hpika : env.pikaKey = false)
    (hrender : env.caps.moviepy = false ∨ env.caps.pil = false ∨
      env.renderOk = false) :
    (runRequest env text log).1 = Outcome.TEXT_FALLBACK ∧
    (runRequest env text log).2.1 = none ∧
    (env.persistOk = true →
      (runRequest env text log).2.2 = log ++ [env.ts ++ ": " ++ text] ∧
      ∃ p, env.ts ++ ": " ++ text = p ++ text) ∧
    (env.persistOk = false → (runRequest env text log).2.2 = log) := by
  have hvp : (if env.pikaKey then (generate_video env.pikaKey env.pika).result
      else none) = none := by
    rw [hpika]
    rfl
  simp only [runRequest, hvp]
  rw [render_fails_of _ _ _ _ _ hrender]
  refine ⟨rfl, rfl, fun hp => ⟨?_, env.ts ++ ": ", rfl⟩, fun hp => ?_⟩
  · simp [hp]
  · simp [hp]

/-- Witness for C6 at a concrete input: all providers disabled, both
rendering capabilities absent, log write succeeding. -/
theorem C6_text_fallback_appends_line_witness :
    disabledRequestEnv.pikaKey = false ∧
    (disabledRequestEnv.caps.moviepy = false ∨ disabledRequestEnv.caps.pil = false ∨
      disabledRequestEnv.renderOk = false) ∧
    ((runRequest disabledRequestEnv "I have stage fright" []).1 =
        Outcome.TEXT_FALLBACK ∧
      (runRequest disabledRequestEnv "I have stage fright" []).2.1 = none ∧
      (disabledRequestEnv.persistOk = true →
        (runRequest disabledRequestEnv "I have stage fright" []).2.2 =
          [] ++ [disabledRequestEnv.ts ++ ": " ++ "I have stage fright"] ∧
        ∃ p, disabledRequestEnv.ts ++ ": " ++ "I have stage fright" =
          p ++ "I have stage fright") ∧
      (disabledRequestEnv.persistOk = false →
        (runRequest disabledRequestEnv "I have stage fright" []).2.2 = [])) :=
  ⟨rfl, Or.inl rfl,
    C6_text_fallback_appends_line disabledRequestEnv "I have stage fright" []
      rfl (Or.inl rfl)⟩

/-- C8: when both capabilities are present (and the rendering body runs to
completion), the fallback renderer produces a clip of exactly
`duration * 24` frames at the fixed frame rate 24, every frame identical —
the prompt word-wrapped into fixed-width lines, with no per-frame
animation — with the fixed 0.6-second cross-fade in and out. -/
theorem C8_static_clip_shape (caps : Caps) (rOk : Bool) (text : String)
    (duration : Nat) (hm : caps.moviepy = true) (hp : caps.pil = true)
    (hr : rOk = true) :
    ∃ clip, render_text_video_with_pil caps rOk text duration FPS =
        (true, some clip) ∧
      clip.frames = List.replicate (duration * 24) (renderFrame text) ∧
      clip.frames.length = duration * 24 ∧
      (∀ fr ∈ clip.frames, fr = renderFrame text) ∧
      clip.fps = 24 ∧ clip.fadeIn = 0.6 ∧ clip.fadeOut = 0.6 := by
  subst hr
  rcases caps with ⟨m, p⟩
  simp only at hm hp
  subst hm
  subst hp
  have hrep : (List.range (duration * FPS)).map (fun _ => renderFrame text) =
      List.replicate (duration * 24) (renderFrame text) := by
    rw [List.map_const', List.length_range]
    rfl
  refine ⟨⟨(List.range (duration * FPS)).map (fun _ => renderFrame text),
    FPS, 0.6, 0.6⟩, rfl, hrep, ?_, ?_, rfl, rfl, rfl⟩
  · show ((List.range (duration * FPS)).map (fun _ => renderFrame text)).length =
      duration * 24
    rw [hrep, List.length_replicate]
  · intro fr hfr
    rw [hrep] at hfr
    exact List.eq_of_mem_replicate hfr

/-- Witness for C8 at a concrete input: both capabilities present, the
default 10-second duration. -/
theorem C8_static_clip_shape_witness :
    (Caps.mk true true).moviepy = true ∧ (Caps.mk true true).pil = true ∧
    ∃ clip, render_text_video_with_pil (Caps.mk true true) true "hello world" 10 FPS =
        (true, some clip) ∧
      clip.frames = List.replicate (10 * 24) (renderFrame "hello world") ∧
      clip.frames.length = 10 * 24 ∧
      (∀ fr ∈ clip.frames, fr = renderFrame "hello world") ∧
      clip.fps = 24 ∧ clip.fadeIn = 0.6 ∧ clip.fadeOut = 0.6 :=
  ⟨rfl, rfl,
    C8_static_clip_shape (Caps.mk true true) true "hello world" 10 rfl rfl rfl⟩

end TextToVideo
